import Mathlib

/-
Verification development for the toplevel-window geometry state machine and
the X11 monitor-topology tracking of this repository.

The definitions below are shallow embeddings of the C source:
  * gtkwindow.c       : gtk_window_compare_hints, geometry_size_to_pixels,
                        gtk_window_compute_configure_request_size,
                        gtk_window_compute_configure_request,
                        gtk_window_constrain_position, gtk_window_move_resize,
                        gtk_window_configure_event, gtk_window_resize
  * gdkscreen-x11.c   : monitor_compare_function, the primary-monitor
                        selection loop of init_randr13, compare_monitor,
                        compare_monitors, process_monitors_change

C `gint` values are modelled as `Int` (the geometry values involved are
small; no arithmetic here approaches the 32-bit range), the `guint16`
in-flight counter is modelled as an `Int` reduced mod 2^16 on increment,
`gdouble` aspect bounds are modelled as exact rationals, and the external
collaborators of the state machine (widget measurement, gdk size
constraining, monitor-centering queries) are passed in as an explicit
environment record, mirroring the spec's PlatformSurface / LayoutEngine
collaborator boundaries.
-/

/-! ## Geometry hints (GdkGeometry / GdkWindowHints) -/

structure GdkGeometry where
  min_width : Int
  min_height : Int
  max_width : Int
  max_height : Int
  base_width : Int
  base_height : Int
  width_inc : Int
  height_inc : Int
  min_aspect : Rat
  max_aspect : Rat
  win_gravity : Int
  deriving DecidableEq, Repr

def GDK_HINT_POS : Nat := 1

def GDK_HINT_MIN_SIZE : Nat := 2

def GDK_HINT_MAX_SIZE : Nat := 4

def GDK_HINT_BASE_SIZE : Nat := 8

def GDK_HINT_ASPECT : Nat := 16

def GDK_HINT_RESIZE_INC : Nat := 32

def GDK_HINT_WIN_GRAVITY : Nat := 64

/-- Embeds gtk_window_compare_hints (gtkwindow.c): equality of two geometry
hint records, looking only at fields covered by a present flag. -/
def gtk_window_compare_hints (geometry_a : GdkGeometry) (flags_a : Nat)
    (geometry_b : GdkGeometry) (flags_b : Nat) : Bool :=
  if flags_a ≠ flags_b then false
  else if flags_a &&& GDK_HINT_MIN_SIZE ≠ 0 ∧
      (geometry_a.min_width ≠ geometry_b.min_width ∨
       geometry_a.min_height ≠ geometry_b.min_height) then false
  else if flags_a &&& GDK_HINT_MAX_SIZE ≠ 0 ∧
      (geometry_a.max_width ≠ geometry_b.max_width ∨
       geometry_a.max_height ≠ geometry_b.max_height) then false
  else if flags_a &&& GDK_HINT_BASE_SIZE ≠ 0 ∧
      (geometry_a.base_width ≠ geometry_b.base_width ∨
       geometry_a.base_height ≠ geometry_b.base_height) then false
  else if flags_a &&& GDK_HINT_ASPECT ≠ 0 ∧
      (geometry_a.min_aspect ≠ geometry_b.min_aspect ∨
       geometry_a.max_aspect ≠ geometry_b.max_aspect) then false
  else if flags_a &&& GDK_HINT_RESIZE_INC ≠ 0 ∧
      (geometry_a.width_inc ≠ geometry_b.width_inc ∨
       geometry_a.height_inc ≠ geometry_b.height_inc) then false
  else if flags_a &&& GDK_HINT_WIN_GRAVITY ≠ 0 ∧
      geometry_a.win_gravity ≠ geometry_b.win_gravity then false
  else true

/-- Logical characterisation of gtk_window_compare_hints. -/
def HintsEquiv (a : GdkGeometry) (fa : Nat) (b : GdkGeometry) (fb : Nat) : Prop :=
  fa = fb ∧
  (fa &&& GDK_HINT_MIN_SIZE ≠ 0 → a.min_width = b.min_width ∧ a.min_height = b.min_height) ∧
  (fa &&& GDK_HINT_MAX_SIZE ≠ 0 → a.max_width = b.max_width ∧ a.max_height = b.max_height) ∧
  (fa &&& GDK_HINT_BASE_SIZE ≠ 0 → a.base_width = b.base_width ∧ a.base_height = b.base_height) ∧
  (fa &&& GDK_HINT_ASPECT ≠ 0 → a.min_aspect = b.min_aspect ∧ a.max_aspect = b.max_aspect) ∧
  (fa &&& GDK_HINT_RESIZE_INC ≠ 0 → a.width_inc = b.width_inc ∧ a.height_inc = b.height_inc) ∧
  (fa &&& GDK_HINT_WIN_GRAVITY ≠ 0 → a.win_gravity = b.win_gravity)

lemma compare_hints_iff (a : GdkGeometry) (fa : Nat) (b : GdkGeometry) (fb : Nat) :
    gtk_window_compare_hints a fa b fb = true ↔ HintsEquiv a fa b fb := by
  unfold gtk_window_compare_hints HintsEquiv
  split_ifs with h1 h2 h3 h4 h5 h6 h7 <;>
    simp_all <;> tauto

lemma compare_hints_refl (a : GdkGeometry) (f : Nat) :
    gtk_window_compare_hints a f a f = true := by
  rw [compare_hints_iff]
  unfold HintsEquiv
  simp

/-- C6 gtk_window_compare_hints returns true iff the two flag sets are
identical and every numeric field covered by a present flag is exactly
equal; it is reflexive, and flipping any single numeric field under a
present flag makes it return false. -/
theorem C6_compare_hints_exact :
    (∀ (a : GdkGeometry) (fa : Nat) (b : GdkGeometry) (fb : Nat),
       gtk_window_compare_hints a fa b fb = true ↔ HintsEquiv a fa b fb) ∧
    (∀ (a : GdkGeometry) (f : Nat), gtk_window_compare_hints a f a f = true) ∧
    (∀ (a : GdkGeometry) (f : Nat) (v : Int), f &&& GDK_HINT_MIN_SIZE ≠ 0 →
       v ≠ a.min_width → gtk_window_compare_hints a f { a with min_width := v } f = false) ∧
    (∀ (a : GdkGeometry) (f : Nat) (v : Int), f &&& GDK_HINT_MIN_SIZE ≠ 0 →
       v ≠ a.min_height → gtk_window_compare_hints a f { a with min_height := v } f = false) ∧
    (∀ (a : GdkGeometry) (f : Nat) (v : Int), f &&& GDK_HINT_MAX_SIZE ≠ 0 →
       v ≠ a.max_width → gtk_window_compare_hints a f { a with max_width := v } f = false) ∧
    (∀ (a : GdkGeometry) (f : Nat) (v : Int), f &&& GDK_HINT_MAX_SIZE ≠ 0 →
       v ≠ a.max_height → gtk_window_compare_hints a f { a with max_height := v } f = false) ∧
    (∀ (a : GdkGeometry) (f : Nat) (v : Int), f &&& GDK_HINT_BASE_SIZE ≠ 0 →
       v ≠ a.base_width → gtk_window_compare_hints a f { a with base_width := v } f = false) ∧
    (∀ (a : GdkGeometry) (f : Nat) (v : Int), f &&& GDK_HINT_BASE_SIZE ≠ 0 →
       v ≠ a.base_height → gtk_window_compare_hints a f { a with base_height := v } f = false) ∧
    (∀ (a : GdkGeometry) (f : Nat) (v : Rat), f &&& GDK_HINT_ASPECT ≠ 0 →
       v ≠ a.min_aspect → gtk_window_compare_hints a f { a with min_aspect := v } f = false) ∧
    (∀ (a : GdkGeometry) (f : Nat) (v : Rat), f &&& GDK_HINT_ASPECT ≠ 0 →
       v ≠ a.max_aspect → gtk_window_compare_hints a f { a with max_aspect := v } f = false) ∧
    (∀ (a : GdkGeometry) (f : Nat) (v : Int), f &&& GDK_HINT_RESIZE_INC ≠ 0 →
       v ≠ a.width_inc → gtk_window_compare_hints a f { a with width_inc := v } f = false) ∧
    (∀ (a : GdkGeometry) (f : Nat) (v : Int), f &&& GDK_HINT_RESIZE_INC ≠ 0 →
       v ≠ a.height_inc → gtk_window_compare_hints a f { a with height_inc := v } f = false) ∧
    (∀ (a : GdkGeometry) (f : Nat) (v : Int), f &&& GDK_HINT_WIN_GRAVITY ≠ 0 →
       v ≠ a.win_gravity → gtk_window_compare_hints a f { a with win_gravity := v } f = false) := by
  refine ⟨compare_hints_iff, compare_hints_refl, ?_, ?_, ?_, ?_, ?_, ?_, ?_, ?_, ?_, ?_, ?_⟩ <;>
  · intro a f v hf hv
    rw [Bool.eq_false_iff]
    intro h
    rw [compare_hints_iff] at h
    obtain ⟨-, hmin, hmax, hbase, hasp, hinc, hgrav⟩ := h
    first
      | exact hv ((hmin hf).1.symm)
      | exact hv ((hmin hf).2.symm)
      | exact hv ((hmax hf).1.symm)
      | exact hv ((hmax hf).2.symm)
      | exact hv ((hbase hf).1.symm)
      | exact hv ((hbase hf).2.symm)
      | exact hv ((hasp hf).1.symm)
      | exact hv ((hasp hf).2.symm)
      | exact hv ((hinc hf).1.symm)
      | exact hv ((hinc hf).2.symm)
      | exact hv ((hgrav hf).symm)

def hintsWitnessGeometry : GdkGeometry :=
  { min_width := 10, min_height := 20, max_width := 800, max_height := 600,
    base_width := 2, base_height := 3, width_inc := 7, height_inc := 9,
    min_aspect := 1, max_aspect := 2, win_gravity := 1 }

/-- Witness for C6 at a concrete hint record with the min-size flag set. -/
theorem C6_compare_hints_witness :
    gtk_window_compare_hints hintsWitnessGeometry 2 hintsWitnessGeometry 2 = true ∧
    gtk_window_compare_hints hintsWitnessGeometry 2
      { hintsWitnessGeometry with min_width := 11 } 2 = false :=
  ⟨C6_compare_hints_exact.2.1 hintsWitnessGeometry 2,
   C6_compare_hints_exact.2.2.1 hintsWitnessGeometry 2 11 (by decide) (by decide)⟩

/-! ## Toplevel window state (GtkWindowPrivate / GtkWindowGeometryInfo) -/

structure Rect where
  x : Int
  y : Int
  width : Int
  height : Int
  deriving DecidableEq, Repr

/-- Embeds GtkWindowLastGeometryInfo: the last-sent configure request with
the hints that accompanied it. -/
structure LastGeometryInfo where
  geometry : GdkGeometry
  flags : Nat
  configure_request : Rect
  deriving DecidableEq, Repr

/-- Embeds the fields of GtkWindowGeometryInfo used by the move/resize
machinery (the geometry-widget pointer is abstracted into the environment's
hint computation). -/
structure GeometryInfo where
  default_width : Int
  default_height : Int
  default_is_geometry : Bool
  resize_width : Int
  resize_height : Int
  resize_is_geometry : Bool
  initial_x : Int
  initial_y : Int
  initial_pos_set : Bool
  position_constraints_changed : Bool
  last : LastGeometryInfo
  deriving DecidableEq, Repr

inductive WindowPosition
  | none
  | center
  | mouse
  | centerAlways
  | centerOnParent
  deriving DecidableEq, Repr

inductive WindowType
  | toplevel
  | popup
  deriving DecidableEq, Repr

/-- Embeds the GtkWindowPrivate fields that drive gtk_window_move_resize and
gtk_window_configure_event, together with the widget's current allocation. -/
structure WindowState where
  info : GeometryInfo
  need_default_size : Bool
  need_default_position : Bool
  configure_request_count : Int
  configure_notify_received : Bool
  position : WindowPosition
  transient_parent_mapped : Bool
  window_type : WindowType
  is_toplevel : Bool
  allocation : Rect
  deriving DecidableEq, Repr

/-- External collaborators of one move/resize pass: the hint computation
(gtk_window_compute_hints, which measures the widget tree), the default-size
guess (gtk_window_guess_default_size), the gdk constraint solver
(gdk_window_constrain_size) and the monitor-centering queries. -/
structure Env where
  hintsGeometry : GdkGeometry
  hintsFlags : Nat
  guessWidth : Int
  guessHeight : Int
  constrainSize : GdkGeometry → Nat → Int → Int → Int × Int
  centerPos : Int → Int → Int × Int
  centerOnParentPos : Int → Int → Int × Int
  mousePos : Int → Int → Int × Int

/-- Embeds get_effective_position: CENTER_ON_PARENT degrades to NONE when the
transient parent is absent or unmapped. -/
def get_effective_position (s : WindowState) : WindowPosition :=
  if s.position = WindowPosition.centerOnParent ∧ ¬ s.transient_parent_mapped then
    WindowPosition.none
  else s.position

/-- Embeds geometry_size_to_pixels: converts a size counted in geometry
units into pixels via the base-size and resize-increment hints; a dimension
is only converted when its corresponding flag argument is set (the C code
passes NULL pointers for the others). -/
def geometry_size_to_pixels (geometry : GdkGeometry) (flags : Nat)
    (doWidth doHeight : Bool) (width height : Int) : Int × Int :=
  let base_width := if flags &&& GDK_HINT_BASE_SIZE ≠ 0 then geometry.base_width else 0
  let base_height := if flags &&& GDK_HINT_BASE_SIZE ≠ 0 then geometry.base_height else 0
  let min_width := if flags &&& GDK_HINT_MIN_SIZE ≠ 0 then geometry.min_width else 0
  let min_height := if flags &&& GDK_HINT_MIN_SIZE ≠ 0 then geometry.min_height else 0
  let width_inc := if flags &&& GDK_HINT_RESIZE_INC ≠ 0 then geometry.width_inc else 1
  let height_inc := if flags &&& GDK_HINT_RESIZE_INC ≠ 0 then geometry.height_inc else 1
  (if doWidth then max (width * width_inc + base_width) min_width else width,
   if doHeight then max (height * height_inc + base_height) min_height else height)

/-- Embeds gtk_window_compute_configure_request_size. The guessed default
size (gtk_window_guess_default_size) is a parameter because it queries the
screen and the widget's preferred size; `info?` is `none` when the window
has no GtkWindowGeometryInfo yet (the C code fetches it with create=FALSE). -/
def gtk_window_compute_configure_request_size (need_default_size : Bool)
    (allocation : Rect) (guessWidth guessHeight : Int)
    (info? : Option GeometryInfo) (geometry : GdkGeometry) (flags : Nat) :
    Int × Int :=
  let wh :=
    if need_default_size then
      let g :=
        if guessWidth = 0 ∧ guessHeight = 0 then ((200 : Int), (200 : Int))
        else (guessWidth, guessHeight)
      match info? with
      | Option.none => g
      | Option.some info =>
        let w := if info.default_width > 0 then info.default_width else g.1
        let h := if info.default_height > 0 then info.default_height else g.2
        if info.default_is_geometry then
          geometry_size_to_pixels geometry flags
            (info.default_width > 0) (info.default_height > 0) w h
        else (w, h)
    else (allocation.width, allocation.height)
  let wh :=
    match info? with
    | Option.none => wh
    | Option.some info =>
      let w := if info.resize_width > 0 then info.resize_width else wh.1
      let h := if info.resize_height > 0 then info.resize_height else wh.2
      if info.resize_is_geometry then
        geometry_size_to_pixels geometry flags
          (info.resize_width > 0) (info.resize_height > 0) w h
      else (w, h)
  (max wh.1 1, max wh.2 1)

/-- Embeds gtk_window_constrain_position: only the CENTER_ALWAYS policy
constrains, by re-centering on the monitor. -/
def gtk_window_constrain_position (s : WindowState) (env : Env)
    (new_width new_height x y : Int) : Int × Int :=
  if s.position = WindowPosition.centerAlways then env.centerPos new_width new_height
  else (x, y)

/-- Embeds gtk_window_compute_configure_request (called from
gtk_window_move_resize, where the GtkWindowGeometryInfo always exists). -/
def gtk_window_compute_configure_request (s : WindowState) (env : Env) :
    Rect × GdkGeometry × Nat :=
  let new_geometry := env.hintsGeometry
  let new_flags := env.hintsFlags
  let wh0 := gtk_window_compute_configure_request_size s.need_default_size
    s.allocation env.guessWidth env.guessHeight (Option.some s.info) new_geometry new_flags
  let wh := env.constrainSize new_geometry new_flags wh0.1 wh0.2
  let pos := get_effective_position s
  let x0 := s.info.last.configure_request.x
  let y0 := s.info.last.configure_request.y
  let xy :=
    if s.need_default_position then
      match pos with
      | WindowPosition.centerAlways => env.centerPos wh.1 wh.2
      | WindowPosition.center => env.centerPos wh.1 wh.2
      | WindowPosition.centerOnParent => env.centerOnParentPos wh.1 wh.2
      | WindowPosition.mouse => env.mousePos wh.1 wh.2
      | WindowPosition.none => (x0, y0)
    else (x0, y0)
  let xy :=
    if s.need_default_position ∧ s.info.initial_pos_set then
      gtk_window_constrain_position s env wh.1 wh.2 s.info.initial_x s.info.initial_y
    else xy
  ({ x := xy.1, y := xy.2, width := wh.1, height := wh.2 }, new_geometry, new_flags)

/-! ## The idle move/resize pass (gtk_window_move_resize) -/

inductive PlatformCall
  | setGeometryHints (geometry : GdkGeometry) (flags : Nat)
  | move (x y : Int)
  | resize (width height : Int)
  | moveResize (x y width height : Int)
  deriving DecidableEq, Repr

/-- Platform calls that ask the windowing system for a new geometry. -/
def PlatformCall.isConfigureRequest : PlatformCall → Bool
  | PlatformCall.move _ _ => true
  | PlatformCall.resize _ _ => true
  | PlatformCall.moveResize _ _ _ _ => true
  | PlatformCall.setGeometryHints _ _ => false

/-- Platform calls that carry a size and therefore await a configure-notify
(the requests counted by configure_request_count). -/
def PlatformCall.isSizeRequest : PlatformCall → Bool
  | PlatformCall.resize _ _ => true
  | PlatformCall.moveResize _ _ _ _ => true
  | _ => false

/-- The values gtk_window_move_resize computes before branching: the new
request (after the position-constraint step), the dirty bits, and the flag
word both as stored into info->last (before the PPosition toggle) and as
sent to the platform (possibly with GDK_HINT_POS toggled on). -/
structure MRPrelude where
  new_request : Rect
  new_geometry : GdkGeometry
  flags_stored : Nat
  flags_sent : Nat
  size_changed : Bool
  pos_changed : Bool
  hints_changed : Bool
  deriving Repr

def mrPrelude (env : Env) (s : WindowState) : MRPrelude :=
  let c := gtk_window_compute_configure_request s env
  let req0 := c.1
  let new_geometry := c.2.1
  let new_flags := c.2.2
  let pos_changed0 : Bool :=
    decide (s.info.last.configure_request.x ≠ req0.x ∨
            s.info.last.configure_request.y ≠ req0.y)
  let size_changed : Bool :=
    decide (s.info.last.configure_request.width ≠ req0.width ∨
            s.info.last.configure_request.height ≠ req0.height)
  let hints_changed0 : Bool :=
    ! gtk_window_compare_hints s.info.last.geometry s.info.last.flags new_geometry new_flags
  let rp :=
    if pos_changed0 || size_changed || hints_changed0 || s.info.position_constraints_changed then
      let cxy := gtk_window_constrain_position s env req0.width req0.height req0.x req0.y
      ({ req0 with x := cxy.1, y := cxy.2 },
       decide (s.info.last.configure_request.x ≠ cxy.1 ∨
               s.info.last.configure_request.y ≠ cxy.2))
    else (req0, pos_changed0)
  let toggle : Bool :=
    (rp.2 || s.info.initial_pos_set ||
      (s.need_default_position && decide (get_effective_position s ≠ WindowPosition.none))) &&
    decide (new_flags &&& GDK_HINT_POS = 0)
  { new_request := rp.1
    new_geometry := new_geometry
    flags_stored := new_flags
    flags_sent := if toggle then new_flags ||| GDK_HINT_POS else new_flags
    size_changed := size_changed
    pos_changed := rp.2
    hints_changed := hints_changed0 || toggle }

/-- Observable outcome of one gtk_window_move_resize pass. -/
structure MoveResizeResult where
  state : WindowState
  calls : List PlatformCall
  queuedResize : Bool
  sizeAllocated : Option Rect
  resizeChildrenRun : Bool
  deriving Repr

/-- The flag resets performed at the end of gtk_window_move_resize (skipped
by the configure_notify_received early return). -/
def endOfPassReset (info : GeometryInfo) : GeometryInfo :=
  { info with position_constraints_changed := false, initial_pos_set := false,
              resize_width := -1, resize_height := -1 }

/-- Embeds gtk_window_move_resize. -/
def gtk_window_move_resize (env : Env) (s : WindowState) : MoveResizeResult :=
  let p := mrPrelude env s
  let hintCalls : List PlatformCall :=
    if p.hints_changed then [PlatformCall.setGeometryHints p.new_geometry p.flags_sent] else []
  let newLast : LastGeometryInfo :=
    { geometry := p.new_geometry, flags := p.flags_stored, configure_request := p.new_request }
  if s.configure_notify_received then
    -- the reconciliation path: accept the size filled in by the configure
    -- event, and restore info->last if the recomputed request still differs
    let info' :=
      if p.size_changed || p.pos_changed then s.info
      else { s.info with last := newLast }
    { state := { s with configure_notify_received := false, info := info' },
      calls := hintCalls,
      queuedResize := p.size_changed || p.pos_changed,
      sizeAllocated := Option.some s.allocation,
      resizeChildrenRun := false }
  else if (p.size_changed || p.hints_changed) &&
      decide (s.allocation.width ≠ p.new_request.width ∨
              s.allocation.height ≠ p.new_request.height) then
    let call :=
      if p.pos_changed then
        PlatformCall.moveResize p.new_request.x p.new_request.y
          p.new_request.width p.new_request.height
      else
        PlatformCall.resize p.new_request.width p.new_request.height
    if s.window_type = WindowType.popup then
      -- override-redirect windows are allocated synchronously
      { state := { s with
          info := endOfPassReset { s.info with last := newLast },
          allocation :=
            { x := 0, y := 0, width := p.new_request.width, height := p.new_request.height } },
        calls := hintCalls ++ [call],
        queuedResize := false,
        sizeAllocated := Option.some
          { x := 0, y := 0, width := p.new_request.width, height := p.new_request.height },
        resizeChildrenRun := false }
    else
      { state := { s with
          info := endOfPassReset { s.info with last := newLast },
          configure_request_count := (s.configure_request_count + 1) % 65536 },
        calls := hintCalls ++ [call],
        queuedResize := true,
        sizeAllocated := Option.none,
        resizeChildrenRun := false }
  else
    { state := { s with info := endOfPassReset { s.info with last := newLast } },
      calls := hintCalls ++
        (if p.pos_changed then [PlatformCall.move p.new_request.x p.new_request.y] else []),
      queuedResize := false,
      sizeAllocated := Option.none,
      resizeChildrenRun := true }

/-! ## The configure-notify handler (gtk_window_configure_event) -/

structure ConfigureEvent where
  width : Int
  height : Int
  deriving DecidableEq, Repr

structure ConfigureEventResult where
  state : WindowState
  thawed : Bool
  queuedResize : Bool
  finished : Bool
  handled : Bool
  deriving Repr

/-- Embeds gtk_window_configure_event. -/
def gtk_window_configure_event (s : WindowState) (event : ConfigureEvent) :
    ConfigureEventResult :=
  if ¬ s.is_toplevel then
    { state := s, thawed := false, queuedResize := false, finished := true, handled := false }
  else
    let expected_reply : Bool := decide (s.configure_request_count > 0)
    let s1 :=
      if s.configure_request_count > 0 then
        { s with configure_request_count := s.configure_request_count - 1 }
      else s
    if ¬ expected_reply ∧
        s.allocation.width = event.width ∧ s.allocation.height = event.height then
      { state := s1, thawed := expected_reply, queuedResize := false,
        finished := true, handled := true }
    else
      { state := { s1 with
          configure_notify_received := true,
          allocation := { s1.allocation with width := event.width, height := event.height } },
        thawed := expected_reply,
        queuedResize := true,
        finished := false,
        handled := true }

/-- Embeds gtk_window_resize: record a one-shot resize request and queue a
resize pass (the g_return_if_fail guards reject non-positive sizes). -/
def gtk_window_resize (s : WindowState) (width height : Int) : WindowState :=
  if width > 0 ∧ height > 0 then
    { s with info := { s.info with
        resize_width := width, resize_height := height, resize_is_geometry := false } }
  else s

/-! ## Concrete fixtures used by witnesses and counterexamples -/

def baseGeometry : GdkGeometry :=
  { min_width := 0, min_height := 0, max_width := 0, max_height := 0,
    base_width := 0, base_height := 0, width_inc := 0, height_inc := 0,
    min_aspect := 0, max_aspect := 0, win_gravity := 1 }

def baseLast : LastGeometryInfo :=
  { geometry := baseGeometry, flags := 0,
    configure_request := { x := 0, y := 0, width := 300, height := 300 } }

def baseInfo : GeometryInfo :=
  { default_width := -1, default_height := -1, default_is_geometry := false,
    resize_width := -1, resize_height := -1, resize_is_geometry := false,
    initial_x := 0, initial_y := 0, initial_pos_set := false,
    position_constraints_changed := false, last := baseLast }

/-- A realized, mapped toplevel at rest: allocation 300x300 equal to the
last-sent configure request, nothing pending, no request in flight. -/
def baseState : WindowState :=
  { info := baseInfo, need_default_size := false, need_default_position := false,
    configure_request_count := 0, configure_notify_received := false,
    position := WindowPosition.none, transient_parent_mapped := false,
    window_type := WindowType.toplevel, is_toplevel := true,
    allocation := { x := 0, y := 0, width := 300, height := 300 } }

/-- An environment whose collaborators are the identity/trivial ones: the
constraint solver grants every size, hints are empty and unchanged. -/
def cexEnv : Env :=
  { hintsGeometry := baseGeometry, hintsFlags := 0,
    guessWidth := 300, guessHeight := 300,
    constrainSize := fun _ _ w h => (w, h),
    centerPos := fun _ _ => (0, 0),
    centerOnParentPos := fun _ _ => (0, 0),
    mousePos := fun _ _ => (0, 0) }

/-! ## C2: position-only configure notifies are fizzled out -/

/-- C2 When a configure-notify arrives while the in-flight counter is zero
and the reported size equals the current allocation, the handler returns
without changing the state and without queueing a resize pass. -/
theorem C2_configure_event_position_noise (s : WindowState) (event : ConfigureEvent)
    (htop : s.is_toplevel = true)
    (hcount : s.configure_request_count = 0)
    (hw : event.width = s.allocation.width)
    (hh : event.height = s.allocation.height) :
    (gtk_window_configure_event s event).state = s ∧
    (gtk_window_configure_event s event).queuedResize = false ∧
    (gtk_window_configure_event s event).handled = true := by
  unfold gtk_window_configure_event
  simp [htop, hcount, hw, hh]

/-- Witness for C2: the base state receives a notify reporting its own
300x300 allocation. -/
theorem C2_configure_event_position_noise_witness :
    (gtk_window_configure_event baseState { width := 300, height := 300 }).state = baseState ∧
    (gtk_window_configure_event baseState { width := 300, height := 300 }).queuedResize = false ∧
    (gtk_window_configure_event baseState { width := 300, height := 300 }).handled = true :=
  C2_configure_event_position_noise baseState { width := 300, height := 300 } rfl rfl rfl rfl

/-! ## C10: the 0x0 default-size guess is replaced by 200x200 -/

/-- C10 When the first configure request is being computed (default size
still needed) and the guessed default size is 0x0, the planner behaves
exactly as if the guess had been 200x200 — the substitution happens before
the app-set default-size override — and with no default-size override and no
pending resize the resulting size is exactly 200x200 (also when no geometry
info exists at all). -/
theorem C10_empty_window_default_size :
    (∀ (allocation : Rect) (info? : Option GeometryInfo) (geometry : GdkGeometry) (flags : Nat),
       gtk_window_compute_configure_request_size true allocation 0 0 info? geometry flags =
       gtk_window_compute_configure_request_size true allocation 200 200 info? geometry flags) ∧
    (∀ (allocation : Rect) (info : GeometryInfo) (geometry : GdkGeometry) (flags : Nat),
       info.default_width ≤ 0 → info.default_height ≤ 0 →
       info.resize_width ≤ 0 → info.resize_height ≤ 0 →
       gtk_window_compute_configure_request_size true allocation 0 0
         (Option.some info) geometry flags = (200, 200)) ∧
    (∀ (allocation : Rect) (geometry : GdkGeometry) (flags : Nat),
       gtk_window_compute_configure_request_size true allocation 0 0
         Option.none geometry flags = (200, 200)) := by
  refine ⟨?_, ?_, ?_⟩
  · intro allocation info? geometry flags
    unfold gtk_window_compute_configure_request_size
    norm_num
  · intro allocation info geometry flags hdw hdh hrw hrh
    unfold gtk_window_compute_configure_request_size geometry_size_to_pixels
    have h1 : ¬ info.default_width > 0 := by omega
    have h2 : ¬ info.default_height > 0 := by omega
    have h3 : ¬ info.resize_width > 0 := by omega
    have h4 : ¬ info.resize_height > 0 := by omega
    simp [h1, h2, h3, h4]
  · intro allocation geometry flags
    unfold gtk_window_compute_configure_request_size
    norm_num

/-- Witness for C10 at a concrete empty-window configuration. -/
theorem C10_empty_window_default_size_witness :
    gtk_window_compute_configure_request_size true
      { x := 0, y := 0, width := 0, height := 0 } 0 0
      (Option.some baseInfo) baseGeometry 0 = (200, 200) :=
  C10_empty_window_default_size.2.1 { x := 0, y := 0, width := 0, height := 0 }
    baseInfo baseGeometry 0 (by decide) (by decide) (by decide) (by decide)

/-! ## C5: resize() to the current size emits no platform call -/

/-- C5 Calling resize() with the window's current allocated size, when
nothing else is pending (hints unchanged, no move or policy pending, the
constraint solver leaves the quiescent sizes alone) and no request is in
flight, makes the next move/resize pass emit no platform call at all. -/
theorem C5_resize_to_current_size_noop (env : Env) (s : WindowState)
    (hnds : s.need_default_size = false)
    (hcn : s.configure_notify_received = false)
    (hcount : s.configure_request_count = 0)
    (hrw : s.info.resize_width = s.allocation.width)
    (hrh : s.info.resize_height = s.allocation.height)
    (hrg : s.info.resize_is_geometry = false)
    (hw : 0 < s.allocation.width)
    (hh : 0 < s.allocation.height)
    (hge : env.hintsGeometry = s.info.last.geometry)
    (hfe : env.hintsFlags = s.info.last.flags)
    (hndp : s.need_default_position = false)
    (hip : s.info.initial_pos_set = false)
    (hpcc : s.info.position_constraints_changed = false)
    (hpos : s.position ≠ WindowPosition.centerAlways)
    (hquiet : env.constrainSize s.info.last.geometry s.info.last.flags
                s.allocation.width s.allocation.height =
                (s.allocation.width, s.allocation.height) ∨
              env.constrainSize s.info.last.geometry s.info.last.flags
                s.allocation.width s.allocation.height =
                (s.info.last.configure_request.width,
                 s.info.last.configure_request.height)) :
    (gtk_window_move_resize env s).calls = [] := by
  have hmaxw : max s.allocation.width 1 = s.allocation.width := max_eq_left (by omega)
  have hmaxh : max s.allocation.height 1 = s.allocation.height := max_eq_left (by omega)
  unfold gtk_window_move_resize mrPrelude gtk_window_compute_configure_request
    gtk_window_compute_configure_request_size gtk_window_constrain_position
  rcases hquiet with hq | hq <;>
    simp [hnds, hcn, hrw, hrh, hrg, hw, hh, hge, hfe, hndp, hip, hpcc, hpos,
          hmaxw, hmaxh, hq, compare_hints_refl]

/-- Witness for C5: the base state with a pending resize(300,300) equal to
its current 300x300 allocation, under the identity constraint solver. -/
theorem C5_resize_to_current_size_noop_witness :
    (gtk_window_move_resize cexEnv
      { baseState with info :=
          { baseInfo with resize_width := 300, resize_height := 300 } }).calls = [] :=
  C5_resize_to_current_size_noop cexEnv
    { baseState with info := { baseInfo with resize_width := 300, resize_height := 300 } }
    rfl rfl rfl rfl rfl rfl (by decide) (by decide) rfl rfl rfl rfl rfl
    (by decide) (Or.inl rfl)

/-! ## C3: the post-notify reconciliation pass restores and requeues -/

/-- C3 On the pass that runs after a configure-notify was received, if the
freshly recomputed request still differs in size or position from the last
sent one, the pass restores the saved last-sent record (geometry, flags and
configure request are unchanged across the pass), queues another local
resize pass, and emits no platform move, resize or move-resize call. -/
theorem C3_reconciliation_restores_last (env : Env) (s : WindowState)
    (hn : s.configure_notify_received = true)
    (hchanged : (mrPrelude env s).size_changed = true ∨ (mrPrelude env s).pos_changed = true) :
    (gtk_window_move_resize env s).state.info.last = s.info.last ∧
    (gtk_window_move_resize env s).queuedResize = true ∧
    (∀ c ∈ (gtk_window_move_resize env s).calls, c.isConfigureRequest = false) := by
  have hb : ((mrPrelude env s).size_changed || (mrPrelude env s).pos_changed) = true := by
    rcases hchanged with h | h <;> simp [h]
  unfold gtk_window_move_resize
  rw [hn]
  simp only [if_true, hb]
  refine ⟨by simp, by simp, ?_⟩
  intro c hc
  simp only [List.mem_ite_nil_right] at hc
  rcases hc with ⟨-, hc⟩
  simp only [List.mem_singleton] at hc
  subst hc
  rfl

/-- A notify was received while a resize to 400x400 is pending, so the
recomputed request (400x400) differs from the last sent 300x300. -/
def notifyPendingState : WindowState :=
  { baseState with
    configure_notify_received := true,
    info := { baseInfo with resize_width := 400, resize_height := 400 } }

/-- Witness for C3 at the concrete notify-received state. -/
theorem C3_reconciliation_restores_last_witness :
    (gtk_window_move_resize cexEnv notifyPendingState).state.info.last =
      notifyPendingState.info.last ∧
    (gtk_window_move_resize cexEnv notifyPendingState).queuedResize = true ∧
    (∀ c ∈ (gtk_window_move_resize cexEnv notifyPendingState).calls,
      c.isConfigureRequest = false) :=
  C3_reconciliation_restores_last cexEnv notifyPendingState rfl (Or.inl (by decide))

/-! ## C1: backpressure is not enforced by the in-flight counter -/

/-- The state reached from the base state by a resize(400,400) followed by
one move/resize pass: the request was sent and one notify is outstanding. -/
def cexInFlightState : WindowState :=
  (gtk_window_move_resize cexEnv (gtk_window_resize baseState 400 400)).state

/-- Counterexample to C1 as stated: with one configure request in flight
(counter = 1) a further resize(500,500) makes the next move/resize pass
emit a second configure request and push the counter to 2; the counter is
never consulted by gtk_window_move_resize. -/
theorem C1_backpressure_counterexample :
    cexInFlightState.configure_request_count = 1 ∧
    (gtk_window_move_resize cexEnv (gtk_window_resize cexInFlightState 500 500)).calls =
      [PlatformCall.resize 500 500] ∧
    (gtk_window_move_resize cexEnv
      (gtk_window_resize cexInFlightState 500 500)).state.configure_request_count = 2 :=
  ⟨rfl, rfl, rfl⟩

/-- C1 (amended) While the in-flight counter is positive, repeated
move/resize passes emit no further configure request as long as the
request they recompute carries no new information: position and hints
unchanged from the last-sent record, and the size either unchanged from
the last-sent size or equal to the current allocation. The code suppresses
resends by these comparisons, never by consulting the counter, and a
further resize() that moves the computed size away from both does produce
an additional in-flight request. -/
theorem C1_no_resend_while_request_unchanged (env : Env) (s : WindowState)
    (hc : 0 < s.configure_request_count)
    (hn : s.configure_notify_received = false)
    (hp : (mrPrelude env s).pos_changed = false)
    (hh : (mrPrelude env s).hints_changed = false)
    (hs : (mrPrelude env s).size_changed = false ∨
          (s.allocation.width = (mrPrelude env s).new_request.width ∧
           s.allocation.height = (mrPrelude env s).new_request.height)) :
    (gtk_window_move_resize env s).calls = [] ∧
    (gtk_window_move_resize env s).state.configure_request_count =
      s.configure_request_count := by
  unfold gtk_window_move_resize
  rw [hn]
  rcases hs with hs | ⟨hsw, hsh⟩
  · simp [hs, hp, hh]
  · simp [hp, hh, hsw, hsh]

/-- Witness for the amended C1: the in-flight state itself (counter = 1,
nothing newly pending) makes the pass a no-op. -/
theorem C1_no_resend_while_request_unchanged_witness :
    (gtk_window_move_resize cexEnv cexInFlightState).calls = [] ∧
    (gtk_window_move_resize cexEnv cexInFlightState).state.configure_request_count =
      cexInFlightState.configure_request_count :=
  C1_no_resend_while_request_unchanged cexEnv cexInFlightState
    (by decide) (by decide) (by decide) (by decide)
    (Or.inr ⟨by decide, by decide⟩)

/-! ## C4: the in-flight counter never goes negative -/

/-- Embeds the counter reset performed by gtk_window_unrealize
(configure_request_count = 0; configure_notify_received = FALSE). -/
def gtk_window_unrealize_reset (s : WindowState) : WindowState :=
  { s with configure_request_count := 0, configure_notify_received := false }

/-- One transition of the window geometry state machine: an idle
move/resize pass, an incoming configure-notify, an app resize() call, or an
unrealize. -/
inductive WindowStep : WindowState → WindowState → Prop
  | move_resize (env : Env) (s : WindowState) :
      WindowStep s (gtk_window_move_resize env s).state
  | configure (s : WindowState) (event : ConfigureEvent) :
      WindowStep s (gtk_window_configure_event s event).state
  | app_resize (s : WindowState) (width height : Int) :
      WindowStep s (gtk_window_resize s width height)
  | unrealize (s : WindowState) :
      WindowStep s (gtk_window_unrealize_reset s)

/-- States reachable from any freshly initialised window (the counter
starts at 0, per gtk_window_init). -/
inductive ReachableWindowState : WindowState → Prop
  | init (s : WindowState) (h : s.configure_request_count = 0) :
      ReachableWindowState s
  | step {s t : WindowState} (hs : ReachableWindowState s) (h : WindowStep s t) :
      ReachableWindowState t

lemma move_resize_count (env : Env) (s : WindowState) :
    (gtk_window_move_resize env s).state.configure_request_count =
      s.configure_request_count ∨
    (gtk_window_move_resize env s).state.configure_request_count =
      (s.configure_request_count + 1) % 65536 := by
  unfold gtk_window_move_resize
  by_cases h1 : s.configure_notify_received = true
  · simp [h1]
  · by_cases h2 : ((mrPrelude env s).size_changed = true ∨ (mrPrelude env s).hints_changed = true) ∧
        (¬s.allocation.width = (mrPrelude env s).new_request.width ∨
         ¬s.allocation.height = (mrPrelude env s).new_request.height)
    · by_cases h3 : s.window_type = WindowType.popup <;>
        simp [h1, h2.1, h2.2, h3]
    · rw [Classical.not_and_iff_or_not_not] at h2
      rcases h2 with h2 | h2 <;> simp [h1, h2]

lemma configure_event_count (s : WindowState) (event : ConfigureEvent)
    (htop : s.is_toplevel = true) :
    (gtk_window_configure_event s event).state.configure_request_count =
      (if 0 < s.configure_request_count then s.configure_request_count - 1
       else s.configure_request_count) := by
  unfold gtk_window_configure_event
  by_cases h2 : s.configure_request_count > 0 <;>
    simp [htop, h2] <;> split <;> simp

lemma window_step_count_nonneg {s t : WindowState} (h : WindowStep s t)
    (hs : 0 ≤ s.configure_request_count) : 0 ≤ t.configure_request_count := by
  cases h with
  | move_resize env s =>
    rcases move_resize_count env s with h | h <;> rw [h]
    · exact hs
    · exact Int.emod_nonneg _ (by norm_num)
  | configure s event =>
    unfold gtk_window_configure_event
    by_cases htop : s.is_toplevel = true
    · by_cases h2 : s.configure_request_count > 0
      · by_cases h3 : s.allocation.width = event.width ∧ s.allocation.height = event.height <;>
          simp [htop, h2, h3] <;> omega
      · by_cases h3 : s.allocation.width = event.width ∧ s.allocation.height = event.height <;>
          simp [htop, h2, h3] <;> omega
    · simp [htop]; exact hs
  | app_resize s width height =>
    unfold gtk_window_resize
    by_cases h2 : width > 0 ∧ height > 0 <;> simp [h2] <;> exact hs
  | unrealize s =>
    simp [gtk_window_unrealize_reset]

/-- C4 The in-flight counter is incremented (by one, mod the guint16 width)
on each outgoing size-carrying configure request of a managed (non-popup)
window, decremented on an incoming configure-notify only when positive, and
is therefore non-negative in every reachable state. -/
theorem C4_inflight_counter_nonneg :
    (∀ s : WindowState, ReachableWindowState s → 0 ≤ s.configure_request_count) ∧
    (∀ (env : Env) (s : WindowState), s.window_type ≠ WindowType.popup →
       ((gtk_window_move_resize env s).calls.any PlatformCall.isSizeRequest) = true →
       (gtk_window_move_resize env s).state.configure_request_count =
         (s.configure_request_count + 1) % 65536) ∧
    (∀ (s : WindowState) (event : ConfigureEvent), s.is_toplevel = true →
       (gtk_window_configure_event s event).state.configure_request_count =
         (if 0 < s.configure_request_count then s.configure_request_count - 1
          else s.configure_request_count)) := by
  refine ⟨?_, ?_, fun s event htop => configure_event_count s event htop⟩
  · intro s hreach
    induction hreach with
    | init s h => rw [h]
    | step hs h ih => exact window_step_count_nonneg h ih
  · intro env s hpopup hsent
    unfold gtk_window_move_resize
    unfold gtk_window_move_resize at hsent
    by_cases h1 : s.configure_notify_received = true
    · by_cases hh : (mrPrelude env s).hints_changed = true <;>
        simp [h1, hh, PlatformCall.isSizeRequest] at hsent
    · by_cases h2 : ((mrPrelude env s).size_changed = true ∨ (mrPrelude env s).hints_changed = true) ∧
          (¬s.allocation.width = (mrPrelude env s).new_request.width ∨
           ¬s.allocation.height = (mrPrelude env s).new_request.height)
      · simp [h1, h2.1, h2.2, hpopup]
      · exfalso
        rw [Classical.not_and_iff_or_not_not] at h2
        rcases h2 with h2 | h2
        · rw [not_or] at h2
          by_cases hp : (mrPrelude env s).pos_changed = true <;>
            simp [h1, h2.1, h2.2, hp, PlatformCall.isSizeRequest] at hsent
        · by_cases hh : (mrPrelude env s).hints_changed = true <;>
            by_cases hp : (mrPrelude env s).pos_changed = true <;>
            simp [h1, h2, hh, hp, PlatformCall.isSizeRequest] at hsent

/-- Witness for C4: the freshly initialised base state is reachable with a
non-negative counter; the emitting pass from the 400x400 resize increments
the counter; a configure-notify at the base state leaves the zero counter
untouched. -/
theorem C4_inflight_counter_nonneg_witness :
    (0 ≤ baseState.configure_request_count) ∧
    ((gtk_window_move_resize cexEnv (gtk_window_resize baseState 400 400)).state.configure_request_count =
      ((gtk_window_resize baseState 400 400).configure_request_count + 1) % 65536) ∧
    ((gtk_window_configure_event baseState { width := 280, height := 290 }).state.configure_request_count =
      (if 0 < baseState.configure_request_count then baseState.configure_request_count - 1
       else baseState.configure_request_count)) :=
  ⟨C4_inflight_counter_nonneg.1 baseState (ReachableWindowState.init baseState rfl),
   C4_inflight_counter_nonneg.2.1 cexEnv (gtk_window_resize baseState 400 400)
     (by decide) (by decide),
   C4_inflight_counter_nonneg.2.2 baseState { width := 280, height := 290 } rfl⟩

/-! ## Monitor topology (gdkscreen-x11.c) -/

/-- Embeds GdkX11Monitor: geometry, RandR output id (0 models None),
physical size in millimeters, and the optional strings. -/
structure GdkX11Monitor where
  geometry : Rect
  output : Nat
  width_mm : Int
  height_mm : Int
  output_name : Option String
  manufacturer : Option String
  deriving DecidableEq, Repr

lemma rect_eq_iff_fields (a b : Rect) :
    a = b ↔ a.x = b.x ∧ a.y = b.y ∧ a.width = b.width ∧ a.height = b.height := by
  constructor
  · intro h
    subst h
    exact ⟨rfl, rfl, rfl, rfl⟩
  · rintro ⟨h1, h2, h3, h4⟩
    cases a
    cases b
    simp_all

/-- Embeds monitor_compare_function: ascending x, then ascending y, then
descending height, then descending width. -/
def monitor_compare_function (monitor1 monitor2 : GdkX11Monitor) : Int :=
  if monitor1.geometry.x ≠ monitor2.geometry.x then
    monitor1.geometry.x - monitor2.geometry.x
  else if monitor1.geometry.y ≠ monitor2.geometry.y then
    monitor1.geometry.y - monitor2.geometry.y
  else if monitor1.geometry.height ≠ monitor2.geometry.height then
    - (monitor1.geometry.height - monitor2.geometry.height)
  else if monitor1.geometry.width ≠ monitor2.geometry.width then
    - (monitor1.geometry.width - monitor2.geometry.width)
  else 0

/-- The non-strict order induced by the comparator (qsort keeps a before b
when the comparator is non-positive). -/
def monitorLe (monitor1 monitor2 : GdkX11Monitor) : Prop :=
  monitor_compare_function monitor1 monitor2 ≤ 0

/-- The strict order induced by the comparator. -/
def monitorLt (monitor1 monitor2 : GdkX11Monitor) : Prop :=
  monitor_compare_function monitor1 monitor2 < 0

lemma monitor_compare_swap (m1 m2 : GdkX11Monitor) :
    monitor_compare_function m2 m1 = - monitor_compare_function m1 m2 := by
  unfold monitor_compare_function
  split_ifs <;> omega

lemma monitor_compare_eq_zero_iff (m1 m2 : GdkX11Monitor) :
    monitor_compare_function m1 m2 = 0 ↔ m1.geometry = m2.geometry := by
  rw [rect_eq_iff_fields]
  unfold monitor_compare_function
  split_ifs <;> omega

lemma monitorLt_of_le_of_ne {m1 m2 : GdkX11Monitor} (h : monitorLe m1 m2)
    (hne : m1.geometry ≠ m2.geometry) : monitorLt m1 m2 := by
  unfold monitorLe at h
  unfold monitorLt
  rcases lt_or_eq_of_le h with h | h
  · exact h
  · exact absurd ((monitor_compare_eq_zero_iff m1 m2).mp h) hne

lemma monitorLt_asymm {m1 m2 : GdkX11Monitor} (h : monitorLt m1 m2)
    (h2 : monitorLt m2 m1) : False := by
  unfold monitorLt at h h2
  rw [monitor_compare_swap] at h2
  omega

lemma monitor_compare_le_iff (m1 m2 : GdkX11Monitor) :
    monitor_compare_function m1 m2 ≤ 0 ↔
    (m1.geometry.x < m2.geometry.x ∨
     (m1.geometry.x = m2.geometry.x ∧
      (m1.geometry.y < m2.geometry.y ∨
       (m1.geometry.y = m2.geometry.y ∧
        (m2.geometry.height < m1.geometry.height ∨
         (m1.geometry.height = m2.geometry.height ∧
          (m2.geometry.width < m1.geometry.width ∨
           m1.geometry.width = m2.geometry.width))))))) := by
  unfold monitor_compare_function
  split_ifs <;> omega

lemma monitorLe_trans {m1 m2 m3 : GdkX11Monitor} (h1 : monitorLe m1 m2)
    (h2 : monitorLe m2 m3) : monitorLe m1 m3 := by
  unfold monitorLe at h1 h2 ⊢
  rw [monitor_compare_le_iff] at h1 h2 ⊢
  omega

/-- C7 The monitor comparator orders by ascending x, then ascending y, then
descending height, then descending width; it is zero exactly on equal
rectangles, total and transitive, so any two sorted permutations of a
monitor list with pairwise distinct rectangles are identical — re-running
discovery on the same raw input can only produce one ordering. -/
theorem C7_monitor_sort_total_order :
    (∀ m1 m2 : GdkX11Monitor, monitor_compare_function m1 m2 < 0 ↔
       (m1.geometry.x < m2.geometry.x ∨
        (m1.geometry.x = m2.geometry.x ∧
         (m1.geometry.y < m2.geometry.y ∨
          (m1.geometry.y = m2.geometry.y ∧
           (m2.geometry.height < m1.geometry.height ∨
            (m1.geometry.height = m2.geometry.height ∧
             m2.geometry.width < m1.geometry.width))))))) ∧
    (∀ m1 m2 : GdkX11Monitor,
       monitor_compare_function m1 m2 = 0 ↔ m1.geometry = m2.geometry) ∧
    (∀ m1 m2 : GdkX11Monitor, monitorLe m1 m2 ∨ monitorLe m2 m1) ∧
    (∀ m1 m2 m3 : GdkX11Monitor, monitorLe m1 m2 → monitorLe m2 m3 → monitorLe m1 m3) ∧
    (∀ l1 l2 : List GdkX11Monitor, l1.Perm l2 →
       l1.Sorted monitorLe → l2.Sorted monitorLe →
       l1.Pairwise (fun a b => a.geometry ≠ b.geometry) → l1 = l2) := by
  refine ⟨?_, monitor_compare_eq_zero_iff, ?_, fun _ _ _ => monitorLe_trans, ?_⟩
  · intro m1 m2
    unfold monitor_compare_function
    split_ifs <;> omega
  · intro m1 m2
    unfold monitorLe monitor_compare_function
    split_ifs <;> omega
  · intro l1 l2 hperm hs1 hs2 hdist
    have hdist2 : l2.Pairwise (fun a b => a.geometry ≠ b.geometry) :=
      (hperm.pairwise_iff (fun hab => Ne.symm hab)).mp hdist
    have hlt1 : l1.Sorted monitorLt :=
      (hs1.and hdist).imp (fun {a b} hab => monitorLt_of_le_of_ne hab.1 hab.2)
    have hlt2 : l2.Sorted monitorLt :=
      (hs2.and hdist2).imp (fun {a b} hab => monitorLt_of_le_of_ne hab.1 hab.2)
    exact @List.eq_of_perm_of_sorted _ monitorLt
      ⟨fun a b hab hba => absurd hab (fun h => monitorLt_asymm h hba)⟩
      _ _ hperm hlt1 hlt2

instance : DecidableRel monitorLe :=
  fun m1 m2 => inferInstanceAs (Decidable (monitor_compare_function m1 m2 ≤ 0))

def scenarioMonitor0 : GdkX11Monitor :=
  { geometry := { x := 0, y := 0, width := 1920, height := 1080 }, output := 1,
    width_mm := 530, height_mm := 300, output_name := Option.some ("DP-1"),
    manufacturer := Option.none }

def scenarioMonitor1 : GdkX11Monitor :=
  { geometry := { x := 1920, y := 0, width := 1920, height := 1080 }, output := 2,
    width_mm := 530, height_mm := 300, output_name := Option.some ("HDMI-1"),
    manufacturer := Option.none }

/-- Witness for C7: the two-monitor scenario list is totally ordered and is
the unique sorted arrangement of itself. -/
theorem C7_monitor_sort_total_order_witness :
    (monitorLe scenarioMonitor0 scenarioMonitor1 ∨
     monitorLe scenarioMonitor1 scenarioMonitor0) ∧
    [scenarioMonitor0, scenarioMonitor1] = [scenarioMonitor0, scenarioMonitor1] := by
  refine ⟨C7_monitor_sort_total_order.2.2.1 scenarioMonitor0 scenarioMonitor1,
    C7_monitor_sort_total_order.2.2.2.2 [scenarioMonitor0, scenarioMonitor1]
      [scenarioMonitor0, scenarioMonitor1] (List.Perm.refl _) ?_ ?_ ?_⟩ <;>
    simp [List.sorted_cons, List.pairwise_cons] <;> decide

/-! ## Primary monitor selection (init_randr13) -/

/-- Embeds g_ascii_tolower restricted to what g_ascii_strncasecmp uses. -/
def g_ascii_tolower (c : Char) : Char :=
  if 'A' ≤ c ∧ c ≤ 'Z' then Char.ofNat (c.toNat + 32) else c

/-- Embeds the `g_ascii_strncasecmp (output_name, "LVDS", 4) == 0` test of
init_randr13; a missing name never matches (the RandR 1.3 path always
copies a non-null name into the monitor record). -/
def lvdsMatch : Option String → Bool
  | Option.none => false
  | Option.some s => (s.toList.take 4).map g_ascii_tolower == ['l', 'v', 'd', 's']

/-- Embeds the primary-selection loop of init_randr13: scan the sorted
monitors; break at the platform-reported primary output; when none is
reported (0 models None), break at the first LVDS-prefixed name; keep the
index of the monitor matching the raw first enumerated output as fallback. -/
def findPrimaryLoop (primary_output first_output : Nat) :
    List GdkX11Monitor → Nat → Nat → Nat
  | [], _, acc => acc
  | m :: rest, i, acc =>
    if m.output = primary_output then i
    else if primary_output = 0 ∧ lvdsMatch m.output_name then i
    else findPrimaryLoop primary_output first_output rest (i + 1)
           (if m.output = first_output then i else acc)

/-- The primary-monitor index computed at the end of init_randr13
(initialised to 0 before the loop). -/
def init_randr13_primary (monitors : List GdkX11Monitor)
    (primary_output first_output : Nat) : Nat :=
  findPrimaryLoop primary_output first_output monitors 0 0

lemma findPrimaryLoop_break_primary (po fo : Nat) (hpo : po ≠ 0) :
    ∀ (pre : List GdkX11Monitor) (m : GdkX11Monitor) (post : List GdkX11Monitor)
      (i acc : Nat), (∀ m' ∈ pre, m'.output ≠ po) → m.output = po →
      findPrimaryLoop po fo (pre ++ m :: post) i acc = i + pre.length := by
  intro pre
  induction pre with
  | nil =>
    intro m post i acc _ hm
    simp [findPrimaryLoop, hm]
  | cons a t ih =>
    intro m post i acc hpre hm
    have ha : a.output ≠ po := hpre a (List.mem_cons_self a t)
    have ht : ∀ m' ∈ t, m'.output ≠ po := fun m' hm' => hpre m' (List.mem_cons_of_mem a hm')
    have hlv : ¬ (po = 0 ∧ lvdsMatch a.output_name = true) := fun hc => hpo hc.1
    rw [List.cons_append]
    show (if a.output = po then i
      else if po = 0 ∧ lvdsMatch a.output_name = true then i
      else findPrimaryLoop po fo (t ++ m :: post) (i + 1)
             (if a.output = fo then i else acc)) = i + (a :: t).length
    rw [if_neg ha, if_neg hlv, ih m post (i + 1) (if a.output = fo then i else acc) ht hm,
      List.length_cons]
    omega

lemma findPrimaryLoop_break_lvds (fo : Nat) :
    ∀ (pre : List GdkX11Monitor) (m : GdkX11Monitor) (post : List GdkX11Monitor)
      (i acc : Nat),
      (∀ m' ∈ pre, m'.output ≠ 0 ∧ lvdsMatch m'.output_name = false) →
      m.output ≠ 0 → lvdsMatch m.output_name = true →
      findPrimaryLoop 0 fo (pre ++ m :: post) i acc = i + pre.length := by
  intro pre
  induction pre with
  | nil =>
    intro m post i acc _ hm hlv
    simp [findPrimaryLoop, hm, hlv]
  | cons a t ih =>
    intro m post i acc hpre hm hlv
    have ha := hpre a (List.mem_cons_self a t)
    have ht : ∀ m' ∈ t, m'.output ≠ 0 ∧ lvdsMatch m'.output_name = false :=
      fun m' hm' => hpre m' (List.mem_cons_of_mem a hm')
    have hlv2 : ¬ ((0 : Nat) = 0 ∧ lvdsMatch a.output_name = true) := by
      simp [ha.2]
    rw [List.cons_append]
    show (if a.output = 0 then i
      else if (0 : Nat) = 0 ∧ lvdsMatch a.output_name = true then i
      else findPrimaryLoop 0 fo (t ++ m :: post) (i + 1)
             (if a.output = fo then i else acc)) = i + (a :: t).length
    rw [if_neg ha.1, if_neg hlv2, ih m post (i + 1) (if a.output = fo then i else acc) ht hm hlv,
      List.length_cons]
    omega

lemma findPrimaryLoop_no_match (fo : Nat) :
    ∀ (l : List GdkX11Monitor) (i acc : Nat),
      (∀ m' ∈ l, m'.output ≠ 0 ∧ lvdsMatch m'.output_name = false ∧ m'.output ≠ fo) →
      findPrimaryLoop 0 fo l i acc = acc := by
  intro l
  induction l with
  | nil => intro i acc _; rfl
  | cons a t ih =>
    intro i acc hl
    have ha := hl a (List.mem_cons_self a t)
    have ht : ∀ m' ∈ t, m'.output ≠ 0 ∧ lvdsMatch m'.output_name = false ∧ m'.output ≠ fo :=
      fun m' hm' => hl m' (List.mem_cons_of_mem a hm')
    have hlv2 : ¬ ((0 : Nat) = 0 ∧ lvdsMatch a.output_name = true) := by
      simp [ha.2.1]
    show (if a.output = 0 then i
      else if (0 : Nat) = 0 ∧ lvdsMatch a.output_name = true then i
      else findPrimaryLoop 0 fo t (i + 1) (if a.output = fo then i else acc)) = acc
    rw [if_neg ha.1, if_neg hlv2, if_neg ha.2.2, ih (i + 1) acc ht]

lemma findPrimaryLoop_last_first_output (fo : Nat) :
    ∀ (pre : List GdkX11Monitor) (m : GdkX11Monitor) (post : List GdkX11Monitor)
      (i acc : Nat),
      (∀ m' ∈ pre ++ m :: post, m'.output ≠ 0 ∧ lvdsMatch m'.output_name = false) →
      m.output = fo → (∀ m' ∈ post, m'.output ≠ fo) →
      findPrimaryLoop 0 fo (pre ++ m :: post) i acc = i + pre.length := by
  intro pre
  induction pre with
  | nil =>
    intro m post i acc hall hm hpost
    have hmm := hall m (List.mem_cons_self m post)
    have hpost2 : ∀ m' ∈ post, m'.output ≠ 0 ∧ lvdsMatch m'.output_name = false ∧
        m'.output ≠ fo := fun m' hm' =>
      ⟨(hall m' (List.mem_cons_of_mem m hm')).1,
       (hall m' (List.mem_cons_of_mem m hm')).2, hpost m' hm'⟩
    have hlv2 : ¬ ((0 : Nat) = 0 ∧ lvdsMatch m.output_name = true) := by
      simp [hmm.2]
    show (if m.output = 0 then i
      else if (0 : Nat) = 0 ∧ lvdsMatch m.output_name = true then i
      else findPrimaryLoop 0 fo post (i + 1) (if m.output = fo then i else acc)) =
        i + ([] : List GdkX11Monitor).length
    rw [if_neg hmm.1, if_neg hlv2, if_pos hm, findPrimaryLoop_no_match fo post (i + 1) i hpost2]
    simp
  | cons a t ih =>
    intro m post i acc hall hm hpost
    have ha := hall a (List.mem_cons_self a _)
    have ht : ∀ m' ∈ t ++ m :: post, m'.output ≠ 0 ∧ lvdsMatch m'.output_name = false :=
      fun m' hm' => hall m' (List.mem_cons_of_mem a hm')
    have hlv2 : ¬ ((0 : Nat) = 0 ∧ lvdsMatch a.output_name = true) := by
      simp [ha.2]
    rw [List.cons_append]
    show (if a.output = 0 then i
      else if (0 : Nat) = 0 ∧ lvdsMatch a.output_name = true then i
      else findPrimaryLoop 0 fo (t ++ m :: post) (i + 1)
             (if a.output = fo then i else acc)) = i + (a :: t).length
    rw [if_neg ha.1, if_neg hlv2,
      ih m post (i + 1) (if a.output = fo then i else acc) ht hm hpost, List.length_cons]
    omega

/-- C8 Primary selection: the first monitor whose output is the
platform-reported primary wins; with no reported primary (None), the first
monitor with an LVDS-prefixed name wins; failing both, the monitor matching
the raw first enumerated output wins, defaulting to index 0 — in
particular, two plain monitors with the first enumerated output first and
no LVDS name resolve to primary index 0. -/
theorem C8_primary_monitor_selection :
    (∀ (po fo : Nat) (pre post : List GdkX11Monitor) (m : GdkX11Monitor),
       po ≠ 0 → (∀ m' ∈ pre, m'.output ≠ po) → m.output = po →
       init_randr13_primary (pre ++ m :: post) po fo = pre.length) ∧
    (∀ (fo : Nat) (pre post : List GdkX11Monitor) (m : GdkX11Monitor),
       (∀ m' ∈ pre, m'.output ≠ 0 ∧ lvdsMatch m'.output_name = false) →
       m.output ≠ 0 → lvdsMatch m.output_name = true →
       init_randr13_primary (pre ++ m :: post) 0 fo = pre.length) ∧
    (∀ (fo : Nat) (pre post : List GdkX11Monitor) (m : GdkX11Monitor),
       (∀ m' ∈ pre ++ m :: post, m'.output ≠ 0 ∧ lvdsMatch m'.output_name = false) →
       m.output = fo → (∀ m' ∈ post, m'.output ≠ fo) →
       init_randr13_primary (pre ++ m :: post) 0 fo = pre.length) ∧
    (∀ (fo : Nat) (monitors : List GdkX11Monitor),
       (∀ m' ∈ monitors, m'.output ≠ 0 ∧ lvdsMatch m'.output_name = false ∧
          m'.output ≠ fo) →
       init_randr13_primary monitors 0 fo = 0) := by
  refine ⟨?_, ?_, ?_, ?_⟩
  · intro po fo pre post m hpo hpre hm
    unfold init_randr13_primary
    rw [findPrimaryLoop_break_primary po fo hpo pre m post 0 0 hpre hm]
    omega
  · intro fo pre post m hpre hm hlv
    unfold init_randr13_primary
    rw [findPrimaryLoop_break_lvds fo pre m post 0 0 hpre hm hlv]
    omega
  · intro fo pre post m hall hm hpost
    unfold init_randr13_primary
    rw [findPrimaryLoop_last_first_output fo pre m post 0 0 hall hm hpost]
    omega
  · intro fo monitors hmon
    unfold init_randr13_primary
    rw [findPrimaryLoop_no_match fo monitors 0 0 hmon]

/-- Witness for C8: the spec scenario — monitors at (0,0,1920,1080) and
(1920,0,1920,1080), no platform primary, no LVDS name, the first enumerated
output being the left monitor — resolves to primary index 0. -/
theorem C8_primary_monitor_selection_witness :
    init_randr13_primary [scenarioMonitor0, scenarioMonitor1] 0
      scenarioMonitor0.output = 0 := by
  have h := C8_primary_monitor_selection.2.2.1 scenarioMonitor0.output
    [] [scenarioMonitor1] scenarioMonitor0 (by decide) (by decide) (by decide)
  simpa using h

/-! ## Topology change detection (process_monitors_change) -/

/-- Embeds compare_monitor: geometry, physical millimeter size, output name
and manufacturer string (g_strcmp0 equality, NULL-safe). -/
def compare_monitor (m1 m2 : GdkX11Monitor) : Bool :=
  if m1.geometry.x ≠ m2.geometry.x ∨ m1.geometry.y ≠ m2.geometry.y ∨
     m1.geometry.width ≠ m2.geometry.width ∨ m1.geometry.height ≠ m2.geometry.height then
    false
  else if m1.width_mm ≠ m2.width_mm ∨ m1.height_mm ≠ m2.height_mm then false
  else if m1.output_name ≠ m2.output_name then false
  else if m1.manufacturer ≠ m2.manufacturer then false
  else true

/-- Embeds compare_monitors: equal length and pointwise compare_monitor. -/
def compare_monitors : List GdkX11Monitor → List GdkX11Monitor → Bool
  | [], [] => true
  | m1 :: rest1, m2 :: rest2 => compare_monitor m1 m2 && compare_monitors rest1 rest2
  | _, _ => false

/-- Embeds process_monitors_change, with the freshly rediscovered topology
passed in (init_multihead queries the platform): the returned Boolean is
whether the "monitors-changed" notification is emitted. -/
def process_monitors_change (old_monitors : List GdkX11Monitor) (old_primary : Nat)
    (new_monitors : List GdkX11Monitor) (new_primary : Nat) : Bool :=
  ! compare_monitors old_monitors new_monitors || decide (new_primary ≠ old_primary)

/-- The fields compare_monitor looks at (everything except the output id). -/
def MonitorDeepEq (m1 m2 : GdkX11Monitor) : Prop :=
  m1.geometry = m2.geometry ∧ m1.width_mm = m2.width_mm ∧
  m1.height_mm = m2.height_mm ∧ m1.output_name = m2.output_name ∧
  m1.manufacturer = m2.manufacturer

lemma compare_monitor_iff (m1 m2 : GdkX11Monitor) :
    compare_monitor m1 m2 = true ↔ MonitorDeepEq m1 m2 := by
  unfold compare_monitor MonitorDeepEq
  rw [rect_eq_iff_fields]
  split_ifs <;> simp_all <;> tauto

lemma compare_monitors_iff (l1 l2 : List GdkX11Monitor) :
    compare_monitors l1 l2 = true ↔ List.Forall₂ MonitorDeepEq l1 l2 := by
  induction l1 generalizing l2 with
  | nil => cases l2 <;> simp [compare_monitors]
  | cons a t ih =>
    cases l2 with
    | nil => simp [compare_monitors]
    | cons b u =>
      simp [compare_monitors, compare_monitor_iff, ih, List.forall₂_cons]

lemma monitorDeepEq_refl (m : GdkX11Monitor) : MonitorDeepEq m m :=
  ⟨rfl, rfl, rfl, rfl, rfl⟩

lemma forall₂_deepEq_refl (l : List GdkX11Monitor) : List.Forall₂ MonitorDeepEq l l := by
  induction l with
  | nil => exact List.Forall₂.nil
  | cons a t ih => exact List.Forall₂.cons (monitorDeepEq_refl a) ih

lemma forall₂_middle {pre post : List GdkX11Monitor} {m m' : GdkX11Monitor}
    (h : List.Forall₂ MonitorDeepEq (pre ++ m :: post) (pre ++ m' :: post)) :
    MonitorDeepEq m m' := by
  induction pre with
  | nil =>
    cases h with
    | cons h1 _ => exact h1
  | cons a t ih =>
    cases h with
    | cons _ h2 => exact ih h2

/-- C9 After a topology refresh the "monitors-changed" notification is
emitted iff the deep comparison of old and new monitor sequences
(per-monitor geometry, physical size, name and manufacturer) differs or the
primary index changed; mutating any single monitor's tracked fields
triggers it and an identical re-discovery does not. -/
theorem C9_monitors_changed_exact :
    (∀ (old_monitors new_monitors : List GdkX11Monitor) (old_primary new_primary : Nat),
       process_monitors_change old_monitors old_primary new_monitors new_primary = true ↔
         (¬ List.Forall₂ MonitorDeepEq old_monitors new_monitors ∨
          new_primary ≠ old_primary)) ∧
    (∀ (monitors : List GdkX11Monitor) (primary : Nat),
       process_monitors_change monitors primary monitors primary = false) ∧
    (∀ (pre post : List GdkX11Monitor) (m m' : GdkX11Monitor) (primary : Nat),
       ¬ MonitorDeepEq m m' →
       process_monitors_change (pre ++ m :: post) primary
         (pre ++ m' :: post) primary = true) := by
  have hmain : ∀ (o n : List GdkX11Monitor) (po pn : Nat),
      process_monitors_change o po n pn = true ↔
        (¬ List.Forall₂ MonitorDeepEq o n ∨ pn ≠ po) := by
    intro o n po pn
    unfold process_monitors_change
    rw [Bool.or_eq_true, Bool.not_eq_true', decide_eq_true_eq]
    constructor
    · rintro (h | h)
      · exact Or.inl (fun hf => by
          rw [(compare_monitors_iff o n).mpr hf] at h
          cases h)
      · exact Or.inr h
    · rintro (h | h)
      · left
        rcases Bool.eq_false_or_eq_true (compare_monitors o n) with hb | hb
        · exact absurd ((compare_monitors_iff o n).mp hb) h
        · exact hb
      · exact Or.inr h
  refine ⟨hmain, ?_, ?_⟩
  · intro monitors primary
    rw [Bool.eq_false_iff]
    intro h
    rcases (hmain monitors monitors primary primary).mp h with h | h
    · exact h (forall₂_deepEq_refl monitors)
    · exact h rfl
  · intro pre post m m' primary hne
    rw [hmain]
    exact Or.inl (fun hf => hne (forall₂_middle hf))

/-- Witness for C9: mutating the physical width of the second scenario
monitor triggers the notification; identical re-discovery of the scenario
pair does not. -/
theorem C9_monitors_changed_exact_witness :
    process_monitors_change [scenarioMonitor0, scenarioMonitor1] 0
      [scenarioMonitor0, scenarioMonitor1] 0 = false ∧
    process_monitors_change [scenarioMonitor0, scenarioMonitor1] 0
      [scenarioMonitor0, { scenarioMonitor1 with width_mm := 600 }] 0 = true := by
  refine ⟨C9_monitors_changed_exact.2.1 [scenarioMonitor0, scenarioMonitor1] 0, ?_⟩
  have h := C9_monitors_changed_exact.2.2 [scenarioMonitor0] []
    scenarioMonitor1 { scenarioMonitor1 with width_mm := 600 } 0
    (by intro hd; exact absurd hd.2.1 (by decide))
  simpa using h
